import Mathlib

/-!
Verification of the voice-capture utility (`streamlit_app.py`).

The embedding below models the session-transcript lifecycle of the app:
the audio-payload shape checks (lines 110-118), the Faster-Whisper
transcription step with its temporary scratch file (lines 120-149), the
Vosk text extraction and chunked feed loop (lines 158-183), and the
accept-transcription block that updates the session transcript
(lines 185-192).  The stray indentation of the `except` clause at
line 193 is read at the level of the `try` at line 122, the only
syntactically coherent placement; the handler thus wraps the whole
transcription step.
-/

/-- Outcome shown to the user by the transcription-handling block:
`success` for `st.success`, `info` for `st.info`, `error` for the
`st.exception` display in the `except` handler. -/
inductive Outcome where
  | success
  | info
  | error
deriving DecidableEq, Repr

/-- Result of the accept-transcription block (lines 185-192):
the new session transcript, whether the text was accepted, and the
message displayed. -/
structure HandleResult where
  transcript : String
  accepted : Bool
  outcome : Outcome
deriving DecidableEq, Repr

/-- Lines 185-192: `if text:` accepts a non-empty text, appending it to a
non-empty prior transcript with a blank-line separator
(`st.session_state.transcribed_text += "\n\n" + text`) or assigning it
directly when the prior transcript is empty; an empty text leaves the
transcript unchanged and shows an informational message. -/
def acceptTranscription (prior text : String) : HandleResult :=
  if text = "" then
    { transcript := prior, accepted := false, outcome := Outcome.info }
  else
    { transcript := if prior = "" then text else prior ++ "\n\n" ++ text,
      accepted := true,
      outcome := Outcome.success }

/-- Python `str.strip()`: remove leading and trailing whitespace
characters. -/
def pyStrip (s : String) : String :=
  ⟨((s.data.dropWhile Char.isWhitespace).reverse.dropWhile Char.isWhitespace).reverse⟩

/-- Lines 141-143: the loop `for seg in segments: parts.append(seg.text)`,
collecting the segment texts in order. -/
def collectParts (segments : List String) : List String :=
  segments.foldl (fun parts seg => parts ++ [seg]) []

/-- Line 144: `text = " ".join(parts).strip()` applied to the collected
segment texts. -/
def whisperText (segments : List String) : String :=
  pyStrip (String.intercalate " " (collectParts segments))

/-- Behaviour of the transcription engine in one run: either it yields a
list of segment texts, or it raises during processing. -/
inductive EngineResult where
  | segs (l : List String)
  | raises
deriving DecidableEq, Repr

/-- Observable result of the whole Faster-Whisper transcription step
(lines 130-192 under the `try` of line 122): the session transcript
afterwards, whether the scratch file was removed, and the message shown. -/
structure StepResult where
  transcript : String
  scratchRemoved : Bool
  outcome : Outcome
deriving DecidableEq, Repr

/-- Lines 130-192: the scratch file is written, the engine runs, and on
normal return the segments are joined (line 144), the scratch file is
removed (lines 146-149) and the text is handed to the accept block
(lines 185-192).  If the engine raises, control jumps to the `except`
handler (lines 193-194): `st.exception` is shown, and neither the
`os.remove` cleanup nor the transcript update is reached. -/
def whisperStep (prior : String) (res : EngineResult) : StepResult :=
  match res with
  | EngineResult.raises =>
      { transcript := prior, scratchRemoved := false, outcome := Outcome.error }
  | EngineResult.segs l =>
      let text := whisperText l
      let h := acceptTranscription prior text
      { transcript := h.transcript, scratchRemoved := true, outcome := h.outcome }

/-- Line 183: `(res.get("text") or "").strip()` — the `text` field of the
Vosk final-result JSON object is `none` when absent or null; Python `or`
maps a falsy value (None or the empty string) to `""`. -/
def pyOrEmpty (v : Option String) : String :=
  match v with
  | some s => if s = "" then "" else s
  | none => ""

/-- Line 183: total extraction of the Vosk transcription text. -/
def voskExtract (field : Option String) : String :=
  pyStrip (pyOrEmpty field)

/-- Lines 176-180: the feed loop `chunk = bio.read(4000); while chunk: ...`
reading the PCM frame buffer in 4000-byte chunks; each list element is one
chunk passed to `rec.AcceptWaveform`. -/
def feedChunks : List Nat → List (List Nat)
  | [] => []
  | x :: xs =>
      ((x :: xs).take 4000) :: feedChunks ((x :: xs).drop 4000)
termination_by l => l.length
decreasing_by
  simp [List.length_drop]
  omega

/-- A value of the dynamically-typed audio payload returned by the capture
widget (line 101): Python None, a byte buffer, a string, or a dict. -/
inductive PyVal where
  | pyNone
  | pyBytes (b : List Nat)
  | pyStr (s : String)
  | pyDict (entries : List (String × PyVal))

/-- Python truthiness of a payload value: None is falsy; bytes, strings and
dicts are truthy iff non-empty. -/
def PyVal.truthy : PyVal → Bool
  | PyVal.pyNone => false
  | PyVal.pyBytes b => !b.isEmpty
  | PyVal.pyStr s => !(s == "")
  | PyVal.pyDict es => !es.isEmpty

/-- Lines 111-115: `wav_bytes = None`; if the payload is a dict containing
the key `"bytes"`, take that entry's value (whatever it is); otherwise, if
it is a raw bytes/bytearray buffer, take it; otherwise `wav_bytes` stays
None. -/
def wavBytesOf : PyVal → Option PyVal
  | PyVal.pyDict es =>
      match es.lookup "bytes" with
      | some v => some v
      | none => none
  | PyVal.pyBytes b => some (PyVal.pyBytes b)
  | _ => none

/-- Python truthiness of the `wav_bytes` variable: None is falsy, otherwise
the value's own truthiness. -/
def pyTruthyOpt : Option PyVal → Bool
  | some v => v.truthy
  | none => false

/-- Lines 110-118: the audio-processing branch (playback and transcription)
is entered iff the payload itself is truthy (line 110 `if audio:`) and the
extracted `wav_bytes` is truthy (line 117 `if wav_bytes:`). -/
def processAudio (audio : PyVal) : Bool :=
  audio.truthy && pyTruthyOpt (wavBytesOf audio)

/-- The payload shape the claim calls usable: a mapping holding a byte
buffer under the key `"bytes"`, or a raw byte buffer. -/
def usableShape (audio : PyVal) : Prop :=
  (∃ es b, audio = PyVal.pyDict es ∧ es.lookup "bytes" = some (PyVal.pyBytes b)) ∨
  (∃ b, audio = PyVal.pyBytes b)

/-- Modelled from the spec: the session record of §3 and the
`startNewRecording` operation of §4.1 are absent from the revision under
`src/` (its session state holds only `transcribed_text` and the capture
widget uses the fixed key `"mic"`, lines 89-107); they belong to the other
revisions the spec describes.  Session state per §3: the editable
transcript and the recorder instance counter. -/
structure Session where
  transcriptText : String
  recorderInstanceId : Nat
deriving DecidableEq, Repr

/-- Modelled from the spec: §3, `recorderInstanceId` starts at 0 and the
transcript starts empty at session creation. -/
def initialSession : Session :=
  { transcriptText := "", recorderInstanceId := 0 }

/-- Modelled from the spec: §4.1, `startNewRecording()` clears
`transcriptText` to empty and increments `recorderInstanceId`. -/
def startNewRecording (s : Session) : Session :=
  { transcriptText := "", recorderInstanceId := s.recorderInstanceId + 1 }

/-- Helper: folding append-of-singleton over a list starting from `init`
yields `init ++ l`. -/
theorem foldl_append_singleton (l init : List String) :
    l.foldl (fun parts seg => parts ++ [seg]) init = init ++ l := by
  induction l generalizing init with
  | nil => simp
  | cons x xs ih =>
      rw [List.foldl_cons, ih]
      simp

/-- C1: counterexample — accepting the non-empty trimmed text "b" when the
prior transcript is "a" yields "a\n\nb", not "b": the accept block at
lines 185-190 appends with a blank-line separator instead of replacing. -/
theorem C1_counterexample :
    pyStrip "b" = "b" ∧ "b" ≠ "" ∧
    (acceptTranscription "a" "b").transcript = "a\n\nb" ∧
    (acceptTranscription "a" "b").transcript ≠ "b" :=
  ⟨by decide, by decide, by decide, by decide⟩

/-- C1 (amended): for every text that is non-empty after trimming,
accepting it reports success, and the resulting transcript is the text
itself when the prior transcript was empty, and otherwise the prior
transcript with a blank-line separator and the text appended
(append policy, not latest-replaces). -/
theorem C1_accept_appends (prior t : String) (h : pyStrip t ≠ "") :
    acceptTranscription prior t =
      { transcript := if prior = "" then t else prior ++ "\n\n" ++ t,
        accepted := true,
        outcome := Outcome.success } := by
  have ht : t ≠ "" := by
    intro he
    subst he
    exact h rfl
  simp [acceptTranscription, ht]

/-- C1 (amended) witness at prior = "a", t = "b". -/
theorem C1_accept_appends_witness :
    acceptTranscription "a" "b" =
      { transcript := if "a" = "" then "b" else "a" ++ "\n\n" ++ "b",
        accepted := true,
        outcome := Outcome.success } :=
  C1_accept_appends "a" "b" (by decide)

/-- C2: at the failing input where the engine raises during processing, the
scratch file is not removed — control jumps from the raise to the
`except` handler at line 193, skipping the `os.remove` cleanup at
line 147, so only the success and empty-result exits clean up. -/
theorem C2_scratch_leak_on_raise :
    (whisperStep "" EngineResult.raises).scratchRemoved = false ∧
    (∀ prior l, (whisperStep prior (EngineResult.segs l)).scratchRemoved = true) :=
  ⟨rfl, fun _ _ => rfl⟩

/-- C3: when the engine raises, the exception is caught by the handler and
surfaced as a displayed exception, and the session transcript is left
unchanged. -/
theorem C3_engine_failure_preserves_transcript (prior : String) :
    (whisperStep prior EngineResult.raises).transcript = prior ∧
    (whisperStep prior EngineResult.raises).outcome = Outcome.error :=
  ⟨rfl, rfl⟩

/-- C4: a transcription result that is empty or whitespace-only after
trimming is not accepted: the transcript is unchanged, the accepted flag
is false, and the outcome is the informational message of line 192.  (The
accept block receives the already-stripped text computed at line 144 or
line 183.) -/
theorem C4_empty_result_no_mutation (prior t : String) (h : pyStrip t = "") :
    acceptTranscription prior (pyStrip t) =
      { transcript := prior, accepted := false, outcome := Outcome.info } := by
  rw [h]
  rfl

/-- C4 witness at prior = "x", t = "  ". -/
theorem C4_empty_result_no_mutation_witness :
    acceptTranscription "x" (pyStrip "  ") =
      { transcript := "x", accepted := false, outcome := Outcome.info } :=
  C4_empty_result_no_mutation "x" "  " (by decide)

/-- C5: the segment-collecting loop followed by join and strip produces
exactly the segments concatenated with single-space separators with
surrounding whitespace trimmed. -/
theorem C5_join_segments (segments : List String) :
    whisperText segments = pyStrip (String.intercalate " " segments) := by
  unfold whisperText collectParts
  rw [foldl_append_singleton]
  rfl

/-- C6: counterexample — the payload `{"bytes": "x"}` is neither a mapping
holding a byte buffer under the key `"bytes"` (it holds a string) nor a
raw byte buffer, yet the shape checks at lines 110-117 pass and the
processing branch is entered. -/
theorem C6_counterexample :
    ¬ usableShape (PyVal.pyDict [("bytes", PyVal.pyStr "x")]) ∧
    processAudio (PyVal.pyDict [("bytes", PyVal.pyStr "x")]) = true := by
  constructor
  · rintro (⟨es, b, heq, hl⟩ | ⟨b, heq⟩)
    · cases heq
      simp [List.lookup] at hl
    · cases heq
  · rfl

/-- C6 (amended): every payload that is neither a mapping whose `"bytes"`
entry is truthy nor a non-empty raw byte buffer is treated as no usable
audio: the processing branch is not entered. -/
theorem C6_no_usable_audio (audio : PyVal)
    (hd : ∀ es v, audio = PyVal.pyDict es →
      es.lookup "bytes" = some v → v.truthy = false)
    (hb : ∀ b, audio = PyVal.pyBytes b → b = []) :
    processAudio audio = false := by
  cases audio with
  | pyNone => rfl
  | pyStr s => simp [processAudio, wavBytesOf, pyTruthyOpt]
  | pyBytes b =>
      have hb' := hb b rfl
      subst hb'
      rfl
  | pyDict es =>
      cases hl : es.lookup "bytes" with
      | none => simp [processAudio, wavBytesOf, pyTruthyOpt, hl]
      | some v =>
          have hv := hd es v rfl hl
          simp [processAudio, wavBytesOf, pyTruthyOpt, hl, hv]

/-- C6 (amended) witness at the string payload "hello". -/
theorem C6_no_usable_audio_witness :
    processAudio (PyVal.pyStr "hello") = false :=
  C6_no_usable_audio (PyVal.pyStr "hello")
    (fun _ _ h _ => nomatch h)
    (fun _ h => nomatch h)

/-- C7: startNewRecording always leaves the transcript empty and strictly
increases the recorder instance counter, which starts at 0 at session
creation. -/
theorem C7_start_new_recording (s : Session) :
    (startNewRecording s).transcriptText = "" ∧
    s.recorderInstanceId < (startNewRecording s).recorderInstanceId ∧
    initialSession.recorderInstanceId = 0 :=
  ⟨rfl, Nat.lt_succ_self _, rfl⟩

/-- C8: accepting a non-empty text when the prior transcript is empty
yields exactly that text, with no separator or prior content prepended. -/
theorem C8_accept_on_empty (t : String) (h : t ≠ "") :
    acceptTranscription "" t =
      { transcript := t, accepted := true, outcome := Outcome.success } := by
  simp [acceptTranscription, h]

/-- C8 witness at t = "hi". -/
theorem C8_accept_on_empty_witness :
    acceptTranscription "" "hi" =
      { transcript := "hi", accepted := true, outcome := Outcome.success } :=
  C8_accept_on_empty "hi" (by decide)

/-- C9: extraction of the text field from the Vosk final result is total;
an absent or null field yields the empty string, and the empty-result
path is taken: transcript unchanged, not accepted, informational
outcome. -/
theorem C9_missing_field_empty_path (prior : String) :
    voskExtract Option.none = "" ∧
    acceptTranscription prior (voskExtract Option.none) =
      { transcript := prior, accepted := false, outcome := Outcome.info } :=
  ⟨rfl, rfl⟩

/-- Helper: the feed loop splits the buffer into non-empty chunks of at
most 4000 bytes whose concatenation is the original buffer; stated with a
fuel bound for induction on the buffer length. -/
theorem feedChunks_spec_aux :
    ∀ (n : Nat) (l : List Nat), l.length ≤ n →
      (feedChunks l).flatten = l ∧
      ∀ c ∈ feedChunks l, c ≠ [] ∧ c.length ≤ 4000 := by
  intro n
  induction n with
  | zero =>
      intro l h
      have hl : l = [] := List.eq_nil_of_length_eq_zero (Nat.le_zero.mp h)
      subst hl
      refine ⟨by simp [feedChunks], ?_⟩
      intro c hc
      simp [feedChunks] at hc
  | succ n ih =>
      intro l h
      match l with
      | [] =>
          refine ⟨by simp [feedChunks], ?_⟩
          intro c hc
          simp [feedChunks] at hc
      | x :: xs =>
          rw [feedChunks]
          have hlen : ((x :: xs).drop 4000).length ≤ n := by
            rw [List.length_drop]
            simp only [List.length_cons] at h ⊢
            omega
          obtain ⟨hjoin, hmem⟩ := ih ((x :: xs).drop 4000) hlen
          refine ⟨?_, ?_⟩
          · rw [List.flatten_cons, hjoin, List.take_append_drop]
          · intro c hc
            rcases List.mem_cons.mp hc with hc | hc
            · subst hc
              constructor
              · simp [List.take_cons]
              · rw [List.length_take]
                exact min_le_left _ _
            · exact hmem c hc

/-- C10: the 4000-byte chunk feed loop terminates and feeds every byte of
the PCM frame buffer exactly once and in order: the concatenation of the
fed chunks is the original buffer, and every fed chunk is a non-empty
block of at most 4000 bytes. -/
theorem C10_feed_loop (frames : List Nat) :
    (feedChunks frames).flatten = frames ∧
    ∀ c ∈ feedChunks frames, c ≠ [] ∧ c.length ≤ 4000 :=
  feedChunks_spec_aux frames.length frames le_rfl
